import Mathlib

/-!
Verification of the Asana status reporter (`src/report_gen.py`).

The module fetches the tasks of an Asana section through a cursor-paginated
endpoint, keeps only the tasks whose "Team" custom field displays the
configured team name, derives four aggregations (pending count,
incoming-by-priority for the current UTC month, by-priority over incomplete
tasks, by-assignee over incomplete tasks) and renders them into a Slack
message, one section per aggregation.

The embedding below mirrors the Python source.  JSON records become
structures with `Option` fields (`none` models an absent key); the network
is modelled by the list of responses the server would return to the
successive requests of the pagination loop; Python exceptions become
`Except` with an explicit error type; the insertion-ordered `dict` used by
the aggregators becomes an association list updated in place
(`bump`); `sorted(..., key=lambda x: x[1], reverse=True)` -- a stable sort,
descending on the count -- becomes `List.insertionSort` with the
non-strict "count at least" relation, which computes exactly the stable
descending arrangement.
-/

namespace AsanaStatus

/-- A custom field record: `field.get("name")` and `field.get("display_value")`,
with `none` for an absent key. -/
structure CustomField where
  name : Option String
  display_value : Option String
deriving DecidableEq, Repr

/-- A task record as consumed by `report_gen.py`: the ordered list of its
custom fields (`task.get("custom_fields", [])`), its creation timestamp
(`task.get("created_at")`), its completion flag (`task.get("completed", False)`)
and the display name of its assignee
(`(task.get("assignee") or {}).get("name", "Unassigned")`). -/
structure Task where
  custom_fields : List CustomField
  created_at : Option String
  completed : Option Bool
  assignee : Option String
deriving DecidableEq, Repr

/-- One response of the paginated endpoint: HTTP status, the `"data"` batch
and the `"next_page"` continuation offset (`none` terminates pagination). -/
structure Response where
  status : Nat
  data : List Task
  next_offset : Option String
deriving DecidableEq, Repr

/-- The errors `report_gen.py` can raise while aggregating:
`Exception(f"API request failed: {status}")` from the fetch loop and the
`ValueError` of `datetime.strptime` on a malformed `created_at`. -/
inductive AsanaError where
  | apiRequestFailed (status : Nat)
  | timestampParseError (s : String)
deriving DecidableEq, Repr

/-- The inner filter of `fetch_tasks_with_pagination` (lines 37-41): a task
is kept iff some custom field has `name == "Team"` and
`display_value == team_name` (the `break` makes one append per task, which
`List.any` models). -/
def matchesTeam (tn : String) (t : Task) : Bool :=
  t.custom_fields.any fun f =>
    decide (f.name = some "Team" ∧ f.display_value = some tn)

/-- The pagination loop of `fetch_tasks_with_pagination` (lines 24-50).
The argument list holds the responses the server returns to the successive
requests of the loop; the result carries the accumulated filtered tasks and
the number of requests issued.  A non-200 status raises
`apiRequestFailed`; a response without `next_page` ends the loop. -/
def fetch_tasks_with_pagination (tn : String) :
    List Response → Except AsanaError (List Task × Nat)
  | [] => Except.ok ([], 0)
  | r :: rest =>
    if r.status ≠ 200 then
      Except.error (AsanaError.apiRequestFailed r.status)
    else
      let filtered := r.data.filter (matchesTeam tn)
      match r.next_offset with
      | none => Except.ok (filtered, 1)
      | some _ =>
        match fetch_tasks_with_pagination tn rest with
        | Except.ok (ts, n) => Except.ok (filtered ++ ts, n + 1)
        | Except.error e => Except.error e

/-- Numeric value of a list of decimal digit characters. -/
def digitsVal (cs : List Char) : Nat :=
  cs.foldl (fun a c => a * 10 + (c.toNat - 48)) 0

/-- True iff year `y` is a Gregorian leap year, as `datetime.date`
reckons it when validating a day of February. -/
def isLeapYear (y : Nat) : Bool :=
  (y % 4 == 0 && y % 100 != 0) || y % 400 == 0

/-- Number of days of month `m` in year `y`, the bound `datetime.date`
enforces on the day field. -/
def daysInMonth (y m : Nat) : Nat :=
  if m = 2 then (if isLeapYear y then 29 else 28)
  else if m = 4 ∨ m = 6 ∨ m = 9 ∨ m = 11 then 30
  else 31

/-- Zero-pads a number below 100 to two digits, as `strftime("%m")` does. -/
def pad2 (n : Nat) : String :=
  if n < 10 then "0" ++ toString n else toString n

/-- Zero-pads a number below 10000 to four digits, the documented
`strftime("%Y")` rendering. -/
def pad4 (n : Nat) : String :=
  if n < 10 then "000" ++ toString n
  else if n < 100 then "00" ++ toString n
  else if n < 1000 then "0" ++ toString n
  else toString n

/-- Consumes one expected literal character. -/
def expectChar (c : Char) : List Char → Option (List Char)
  | x :: rest => if x = c then some rest else none
  | [] => none

/-- Consumes the T separator; `strptime` compiles its pattern with
IGNORECASE, so the lowercase letter also matches. -/
def expectT : List Char → Option (List Char)
  | x :: rest => if x = 'T' ∨ x = 't' then some rest else none
  | [] => none

/-- Consumes the final Z designator, case-insensitively like `strptime`. -/
def expectZ : List Char → Option (List Char)
  | x :: rest => if x = 'Z' ∨ x = 'z' then some rest else none
  | [] => none

/-- Reads one numeric field of the `strptime` pattern: a maximal run of
one or two digits whose value lies in `[lo, hi]`.  Against the following
non-digit literal this is exactly what the CPython field regexes admit
(for example `1[0-2]|0[1-9]|[1-9]` for the month): one or two digits, no
zero-padding required, out-of-range values rejected. -/
def readField (lo hi : Nat) (cs : List Char) : Option (Nat × List Char) :=
  let run := cs.takeWhile Char.isDigit
  let rest := cs.dropWhile Char.isDigit
  if 1 ≤ run.length ∧ run.length ≤ 2 ∧ lo ≤ digitsVal run ∧ digitsVal run ≤ hi then
    some (digitsVal run, rest)
  else none

/-- Model of `datetime.strptime(s, "%Y-%m-%dT%H:%M:%S.%fZ")` followed by
`.strftime("%Y-%m")`: `none` is the `ValueError` on a string the call
rejects, `some ym` the zero-padded year-month rendering of one it
accepts.  Mirrors CPython: exactly four year digits; month, day, hour,
minute and second each one or two digits (no padding required) within
their ranges; second at most 59 because the `datetime` constructor
rejects the leap seconds the regex admits; one to six fraction digits;
the literals T and Z case-insensitive; the whole string consumed; the
calendar date validated (days per month, Gregorian leap years, year at
least 1). -/
def parseCreatedAt (s : String) : Option String :=
  let cs := s.toList
  let yrun := cs.takeWhile Char.isDigit
  if yrun.length ≠ 4 then none else
  (expectChar '-' (cs.dropWhile Char.isDigit)).bind fun r2 =>
  (readField 1 12 r2).bind fun mo3 =>
  (expectChar '-' mo3.2).bind fun r4 =>
  (readField 1 31 r4).bind fun dy5 =>
  (expectT dy5.2).bind fun r6 =>
  (readField 0 23 r6).bind fun hr7 =>
  (expectChar ':' hr7.2).bind fun r8 =>
  (readField 0 59 r8).bind fun mi9 =>
  (expectChar ':' mi9.2).bind fun r10 =>
  (readField 0 59 r10).bind fun se11 =>
  (expectChar '.' se11.2).bind fun r12 =>
  let frun := r12.takeWhile Char.isDigit
  if frun.length < 1 ∨ 6 < frun.length then none else
  (expectZ (r12.dropWhile Char.isDigit)).bind fun r13 =>
  if r13 ≠ [] then none else
  if digitsVal yrun < 1 then none else
  if daysInMonth (digitsVal yrun) mo3.1 < dy5.1 then none else
  some (pad4 (digitsVal yrun) ++ "-" ++ pad2 mo3.1)

/-- One `dict` increment `counts[k] = counts.get(k, 0) + 1` on an
insertion-ordered association list: an existing key keeps its position, a
new key is appended. -/
def bump (acc : List (String × Nat)) (k : String) : List (String × Nat) :=
  if acc.any (fun p => p.1 = k) then
    acc.map fun p => if p.1 = k then (p.1, p.2 + 1) else p
  else acc ++ [(k, 1)]

/-- The custom-field scan shared by both by-priority aggregators
(lines 75-79 and 94-98): every field whose name equals the priority field
increments the count of its display value, with `"Unknown"` substituted for
an absent display value.  There is no `break`: each matching field
contributes one increment. -/
def bumpFields (pf : String) : List CustomField → List (String × Nat) → List (String × Nat)
  | [], acc => acc
  | f :: fs, acc =>
    if f.name = some pf then
      bumpFields pf fs (bump acc (f.display_value.getD "Unknown"))
    else
      bumpFields pf fs acc

/-- The task loop of `get_incoming_tasks_grouped_by_priority` (lines 66-79):
the guard `if not created_at: continue` tests Python truthiness, so a task
whose `created_at` is absent or the empty string is skipped; a remaining
malformed timestamp raises; a task whose year-month differs from the
current month is skipped; otherwise every priority-named field bumps its
display value. -/
def incomingGo (pf cm : String) :
    List Task → List (String × Nat) → Except AsanaError (List (String × Nat))
  | [], acc => Except.ok acc
  | t :: ts, acc =>
    match t.created_at with
    | none => incomingGo pf cm ts acc
    | some s =>
      if s = "" then incomingGo pf cm ts acc
      else
        match parseCreatedAt s with
        | none => Except.error (AsanaError.timestampParseError s)
        | some ym =>
          if ym = cm then incomingGo pf cm ts (bumpFields pf t.custom_fields acc)
          else incomingGo pf cm ts acc

/-- The task loop of `get_tasks_grouped_by_priority` (lines 90-98): completed
tasks are skipped, the rest bump every priority-named field. -/
def byPriorityGo (pf : String) : List Task → List (String × Nat) → List (String × Nat)
  | [], acc => acc
  | t :: ts, acc =>
    if t.completed.getD false then byPriorityGo pf ts acc
    else byPriorityGo pf ts (bumpFields pf t.custom_fields acc)

/-- The task loop of `get_tasks_grouped_by_assignee` (lines 109-116):
completed tasks are skipped, the rest bump their assignee name, with
`"Unassigned"` for a missing assignee. -/
def byAssigneeGo : List Task → List (String × Nat) → List (String × Nat)
  | [], acc => acc
  | t :: ts, acc =>
    if t.completed.getD false then byAssigneeGo ts acc
    else byAssigneeGo ts (bump acc (t.assignee.getD "Unassigned"))

/-- The ordering used by `sorted(counts.items(), key=lambda x: x[1], reverse=True)`:
pair `a` may precede pair `b` when the count of `a` is at least that of `b`. -/
def countGE (a b : String × Nat) : Prop := b.2 ≤ a.2

instance : DecidableRel countGE := fun a b =>
  inferInstanceAs (Decidable (b.2 ≤ a.2))

instance : IsTotal (String × Nat) countGE :=
  ⟨fun a b => (Nat.le_total b.2 a.2).elim Or.inl Or.inr⟩

instance : IsTrans (String × Nat) countGE :=
  ⟨fun _ _ _ hab hbc => Nat.le_trans hbc hab⟩

/-- Model of the Python `sorted(items, key=lambda x: x[1], reverse=True)`:
Python sorted is stable, and a stable descending sort is exactly insertion
sort with the non-strict descending relation. -/
def sortDesc (l : List (String × Nat)) : List (String × Nat) :=
  List.insertionSort countGE l

/-- Pipeline of `get_pending_tasks` (lines 52-56): fetch with the Team
filter, then count the tasks whose completion flag defaults to false. -/
def get_pending_tasks (tn : String) (pages : List Response) : Except AsanaError Nat :=
  (fetch_tasks_with_pagination tn pages).map fun p =>
    p.1.countP fun t => !(t.completed.getD false)

/-- Pipeline of `get_incoming_tasks_grouped_by_priority` (lines 58-81):
fetch, group the current-month tasks by priority display value, then sort
descending by count. -/
def get_incoming_tasks_grouped_by_priority (tn pf cm : String) (pages : List Response) :
    Except AsanaError (List (String × Nat)) :=
  match fetch_tasks_with_pagination tn pages with
  | Except.error e => Except.error e
  | Except.ok p =>
    match incomingGo pf cm p.1 [] with
    | Except.error e => Except.error e
    | Except.ok acc => Except.ok (sortDesc acc)

/-- Pipeline of `get_tasks_grouped_by_priority` (lines 83-100): fetch, then
group the incomplete tasks by priority display value; the dict is returned
unsorted, in key insertion order. -/
def get_tasks_grouped_by_priority (tn pf : String) (pages : List Response) :
    Except AsanaError (List (String × Nat)) :=
  (fetch_tasks_with_pagination tn pages).map fun p => byPriorityGo pf p.1 []

/-- Pipeline of `get_tasks_grouped_by_assignee` (lines 102-118): fetch, group
the incomplete tasks by assignee name, then sort descending by count. -/
def get_tasks_grouped_by_assignee (tn : String) (pages : List Response) :
    Except AsanaError (List (String × Nat)) :=
  (fetch_tasks_with_pagination tn pages).map fun p => sortDesc (byAssigneeGo p.1 [])

/-- Model of the Python message of each error as `str(e)` renders it:
the text of the `Exception` raised by the fetch loop, and the model of the
`ValueError` message of `strptime`. -/
def errMsg : AsanaError → String
  | AsanaError.apiRequestFailed c => "API request failed: " ++ toString c
  | AsanaError.timestampParseError s =>
      "time data " ++ s ++ " does not match format %Y-%m-%dT%H:%M:%S.%fZ"

/-- One line per (key, count) pair, as `main` appends them. -/
def renderLines (l : List (String × Nat)) : String :=
  l.foldl (fun s p => s ++ "   - " ++ p.1 ++ ": " ++ toString p.2 ++ "\n") ""

/-- The pending-tasks section of `main` (lines 146-150). -/
def renderPending (r : Except AsanaError Nat) : String :=
  match r with
  | Except.ok n => "📌 *Pending Tasks:* " ++ toString n ++ "\n"
  | Except.error e => "⚠️ Error fetching pending tasks: " ++ errMsg e ++ "\n"

/-- The incoming-by-priority section of `main` (lines 152-161): the header
carries the current month; an empty result renders the literal placeholder
line. -/
def renderIncoming (cm : String) (r : Except AsanaError (List (String × Nat))) : String :=
  match r with
  | Except.ok l =>
      "\n📥 *Incoming Tasks (" ++ cm ++ ") grouped by Priority:*\n" ++
        (if l = [] then "   - 0\n" else renderLines l)
  | Except.error e => "⚠️ Error fetching incoming tasks by priority: " ++ errMsg e ++ "\n"

/-- The by-priority section of `main` (lines 163-169). -/
def renderPriority (r : Except AsanaError (List (String × Nat))) : String :=
  match r with
  | Except.ok l => "\n🔥 *Tasks grouped by Priority:*\n" ++ renderLines l
  | Except.error e => "⚠️ Error fetching tasks by priority: " ++ errMsg e ++ "\n"

/-- The by-assignee section of `main` (lines 171-177). -/
def renderAssignee (r : Except AsanaError (List (String × Nat))) : String :=
  match r with
  | Except.ok l => "\n👥 *Tasks grouped by Assignee:*\n" ++ renderLines l
  | Except.error e => "⚠️ Error fetching tasks by assignee: " ++ errMsg e ++ "\n"

/-- The message construction of `main` (lines 140-180), transcribed as the
sequential appends of the four try/except blocks onto the initially empty
`slack_message`, prefixed as `send_slack_message` is called.  Each argument
is the outcome of the corresponding aggregator call. -/
def buildSlackMessage (cm : String) (p : Except AsanaError Nat)
    (inc pri asg : Except AsanaError (List (String × Nat))) : String :=
  let m := ""
  let m := m ++ (match p with
    | Except.ok n => "📌 *Pending Tasks:* " ++ toString n ++ "\n"
    | Except.error e => "⚠️ Error fetching pending tasks: " ++ errMsg e ++ "\n")
  let m := m ++ (match inc with
    | Except.ok l =>
        "\n📥 *Incoming Tasks (" ++ cm ++ ") grouped by Priority:*\n" ++
          (if l = [] then "   - 0\n" else renderLines l)
    | Except.error e => "⚠️ Error fetching incoming tasks by priority: " ++ errMsg e ++ "\n")
  let m := m ++ (match pri with
    | Except.ok l => "\n🔥 *Tasks grouped by Priority:*\n" ++ renderLines l
    | Except.error e => "⚠️ Error fetching tasks by priority: " ++ errMsg e ++ "\n")
  let m := m ++ (match asg with
    | Except.ok l => "\n👥 *Tasks grouped by Assignee:*\n" ++ renderLines l
    | Except.error e => "⚠️ Error fetching tasks by assignee: " ++ errMsg e ++ "\n")
  "*Asana Status* \n\n" ++ m

/-- The report `main` would publish: each aggregator performs its own fetch
with its own field selection, so each receives its own response sequence. -/
def mainReport (tn pf cm : String) (pages1 pages2 pages3 pages4 : List Response) : String :=
  buildSlackMessage cm
    (get_pending_tasks tn pages1)
    (get_incoming_tasks_grouped_by_priority tn pf cm pages2)
    (get_tasks_grouped_by_priority tn pf pages3)
    (get_tasks_grouped_by_assignee tn pages4)

/-- Sum of the counts of an aggregation result: the total number of
contributions the tasks made to it. -/
def totalCount (l : List (String × Nat)) : Nat := (l.map Prod.snd).sum

/-- The keys of an association list are pairwise distinct, as the keys of
the Python dict it models always are. -/
def KeysNodup (l : List (String × Nat)) : Prop := (l.map Prod.fst).Nodup

/-! Concrete records used to evaluate the development on closed inputs. -/

def fieldTeam : CustomField := ⟨some "Team", some "Engagement"⟩

def fieldPriorityHigh : CustomField := ⟨some "Priority", some "High"⟩

def taskTeamOnly : Task :=
  ⟨[fieldTeam], some "2025-09-03T12:00:00.123456Z", none, none⟩

def taskOtherTeam : Task :=
  ⟨[⟨some "Team", some "Platform"⟩], none, none, none⟩

def taskDupPriority : Task :=
  ⟨[fieldTeam, fieldPriorityHigh, fieldPriorityHigh], none, none, some "Dana"⟩

def taskBadTimestamp : Task := ⟨[fieldTeam], some "2025-09-03", none, none⟩

def taskNoFlag : Task :=
  ⟨[fieldTeam, fieldPriorityHigh], some "2025-09-10T08:30:00.5Z", none, some "Alex"⟩

def pagesOne : List Response := [⟨200, [taskTeamOnly, taskOtherTeam], none⟩]

def pagesTwo : List Response :=
  [⟨200, [taskTeamOnly], some "off1"⟩, ⟨200, [taskDupPriority, taskOtherTeam], none⟩]

def pagesBad : List Response := [⟨200, [taskTeamOnly], some "off1"⟩, ⟨500, [], none⟩]

def pagesMalformed : List Response := [⟨200, [taskBadTimestamp], none⟩]

def taskEmptyTs : Task := ⟨[fieldTeam], some "", none, none⟩

def pagesEmptyTs : List Response := [⟨200, [taskEmptyTs], none⟩]

def taskHighSep : Task :=
  ⟨[fieldTeam, fieldPriorityHigh], some "2025-09-01T00:00:00.0Z", none, some "Alex"⟩

def taskLow1 : Task :=
  ⟨[fieldTeam, ⟨some "Priority", some "Low"⟩], some "2025-09-02T00:00:00.0Z", none, some "Bob"⟩

def taskLow2 : Task :=
  ⟨[fieldTeam, ⟨some "Priority", some "Low"⟩], some "2025-09-04T00:00:00.0Z", none, some "Bob"⟩

def pagesSort : List Response := [⟨200, [taskHighSep, taskLow1, taskLow2], none⟩]

/-! Lemmas on the Team filter and the pagination loop. -/

theorem matchesTeam_iff (tn : String) (t : Task) :
    matchesTeam tn t = true ↔
      ∃ f ∈ t.custom_fields, f.name = some "Team" ∧ f.display_value = some tn := by
  simp [matchesTeam]

theorem fetch_ok_matches (tn : String) :
    ∀ (pages : List Response) (ts : List Task) (n : Nat),
      fetch_tasks_with_pagination tn pages = Except.ok (ts, n) →
      ∀ t ∈ ts, matchesTeam tn t = true := by
  intro pages
  induction pages with
  | nil =>
    intro ts n h t ht
    simp only [fetch_tasks_with_pagination, Except.ok.injEq, Prod.mk.injEq] at h
    rw [← h.1] at ht
    simp at ht
  | cons r rest ih =>
    intro ts n h t ht
    rw [fetch_tasks_with_pagination] at h
    split at h
    · exact absurd h (by simp)
    · dsimp only at h
      split at h
      · simp only [Except.ok.injEq, Prod.mk.injEq] at h
        rw [← h.1] at ht
        exact (List.mem_filter.mp ht).2
      · split at h
        · next ts2 n2 heq =>
          simp only [Except.ok.injEq, Prod.mk.injEq] at h
          rw [← h.1] at ht
          rcases List.mem_append.mp ht with h1 | h2
          · exact (List.mem_filter.mp h1).2
          · exact ih ts2 n2 heq t h2
        · exact absurd h (by simp)

/-- C1: a task contributes to any of the four aggregations only if it has a
custom attribute named "Team" whose display value equals the configured team
name (exact, case-sensitive string equality); all four aggregation pipelines
(`get_pending_tasks`, `get_incoming_tasks_grouped_by_priority`,
`get_tasks_grouped_by_priority`, `get_tasks_grouped_by_assignee`) consume
only the output of `fetch_tasks_with_pagination`, and every task of that
output carries such an attribute, so tasks without one are excluded from
every result. -/
theorem C1_team_filter_invariant (tn : String) (pages : List Response)
    (ts : List Task) (n : Nat)
    (h : fetch_tasks_with_pagination tn pages = Except.ok (ts, n)) :
    ∀ t ∈ ts, ∃ f ∈ t.custom_fields, f.name = some "Team" ∧ f.display_value = some tn :=
  fun t ht => (matchesTeam_iff tn t).mp (fetch_ok_matches tn pages ts n h t ht)

/-- Witness for C1 on a concrete page: the fetch keeps exactly the
Engagement task and it carries the required attribute. -/
theorem C1_team_filter_invariant_witness :
    fetch_tasks_with_pagination "Engagement" pagesOne = Except.ok ([taskTeamOnly], 1) ∧
      ∃ f ∈ taskTeamOnly.custom_fields,
        f.name = some "Team" ∧ f.display_value = some "Engagement" :=
  ⟨by rfl,
    C1_team_filter_invariant "Engagement" pagesOne [taskTeamOnly] 1 (by rfl)
      taskTeamOnly (by simp)⟩

/-- C2: on a response sequence whose every page answers 200, whose every
page but the last carries a continuation offset and whose last page carries
none, the pagination loop issues exactly one request per page (the request
count equals the page count), terminates, and returns the Team-filtered
tasks of all pages concatenated in page order, each page keeping the order
the server supplied. -/
theorem C2_pagination_exact (tn : String) :
    ∀ (pages : List Response),
      (∀ r ∈ pages, r.status = 200) →
      (∀ r ∈ pages.dropLast, r.next_offset.isSome) →
      pages.getLast?.map Response.next_offset = some none →
      fetch_tasks_with_pagination tn pages =
        Except.ok ((pages.map fun p => p.data.filter (matchesTeam tn)).flatten, pages.length) := by
  intro pages
  induction pages with
  | nil => intro _ _ _; simp [fetch_tasks_with_pagination]
  | cons r rest ih =>
    intro hstat hmid hlast
    have hr : r.status = 200 := hstat r (by simp)
    rw [fetch_tasks_with_pagination]
    rw [if_neg (by simp [hr])]
    cases rest with
    | nil =>
      simp only [List.getLast?, Option.map_some] at hlast
      have hnone : r.next_offset = none := by
        exact Option.some.inj hlast
      simp [hnone]
    | cons a rest2 =>
      have hsome : r.next_offset.isSome := by
        apply hmid r
        simp [List.dropLast]
      obtain ⟨off, hoff⟩ := Option.isSome_iff_exists.mp hsome
      rw [hoff]
      have hrec : fetch_tasks_with_pagination tn (a :: rest2) =
          Except.ok (((a :: rest2).map fun p => p.data.filter (matchesTeam tn)).flatten,
            (a :: rest2).length) := by
        apply ih
        · intro r2 hr2; exact hstat r2 (by simp [hr2])
        · intro r2 hr2
          apply hmid r2
          simp [List.dropLast] at hr2 ⊢
          exact Or.inr hr2
        · rw [← hlast]
          rw [List.getLast?_cons_cons]
      rw [hrec]
      simp [List.flatten]

/-- Witness for C2 on a concrete two-page sequence: two requests, and the
filtered tasks of page one followed by those of page two. -/
theorem C2_pagination_exact_witness :
    fetch_tasks_with_pagination "Engagement" pagesTwo =
      Except.ok ((pagesTwo.map fun p =>
        p.data.filter (matchesTeam "Engagement")).flatten, pagesTwo.length) :=
  C2_pagination_exact "Engagement" pagesTwo (by decide) (by decide) (by rfl)

/-- C8: when every response before some page answers 200 and carries a
continuation offset and that page answers a non-200 status, the fetch
returns the transport error embedding that status code and no task list:
the tasks filtered from the earlier pages are discarded with the error, and
the loop stops at the failing request (responses after it are never
consumed). -/
theorem C8_non200_aborts (tn : String) :
    ∀ (pre : List Response) (bad : Response) (rest : List Response),
      (∀ r ∈ pre, r.status = 200 ∧ r.next_offset.isSome) →
      bad.status ≠ 200 →
      fetch_tasks_with_pagination tn (pre ++ bad :: rest) =
        Except.error (AsanaError.apiRequestFailed bad.status) := by
  intro pre
  induction pre with
  | nil =>
    intro bad rest _ hbad
    rw [List.nil_append, fetch_tasks_with_pagination]
    rw [if_pos hbad]
  | cons r pre2 ih =>
    intro bad rest hpre hbad
    have hr := hpre r (by simp)
    obtain ⟨off, hoff⟩ := Option.isSome_iff_exists.mp hr.2
    rw [List.cons_append, fetch_tasks_with_pagination]
    rw [if_neg (by simp [hr.1])]
    dsimp only
    rw [hoff]
    rw [ih bad rest (fun r2 h2 => hpre r2 (by simp [h2])) hbad]

/-- Witness for C8 on a concrete sequence: page one succeeds with an offset,
page two answers 500, and the whole fetch is the transport error for 500. -/
theorem C8_non200_aborts_witness :
    fetch_tasks_with_pagination "Engagement" pagesBad =
      Except.error (AsanaError.apiRequestFailed 500) :=
  C8_non200_aborts "Engagement" [⟨200, [taskTeamOnly], some "off1"⟩]
    ⟨500, [], none⟩ [] (by decide) (by decide)

/-! Lemmas on the dict increment and the priority-field scan. -/

theorem totalCount_cons (p : String × Nat) (l : List (String × Nat)) :
    totalCount (p :: l) = p.2 + totalCount l := by
  simp [totalCount]

theorem bumpFields_no_match (pf : String) :
    ∀ (fs : List CustomField) (acc : List (String × Nat)),
      (∀ f ∈ fs, ¬ f.name = some pf) → bumpFields pf fs acc = acc := by
  intro fs
  induction fs with
  | nil => intro acc _; rfl
  | cons f fs2 ih =>
    intro acc h
    rw [bumpFields, if_neg (h f (by simp))]
    exact ih acc fun g hg => h g (by simp [hg])

theorem map_bump_no_key (k : String) :
    ∀ acc : List (String × Nat), (∀ p ∈ acc, ¬ p.1 = k) →
      (acc.map fun p => if p.1 = k then (p.1, p.2 + 1) else p) = acc := by
  intro acc
  induction acc with
  | nil => intro _; rfl
  | cons p acc2 ih =>
    intro h
    rw [List.map_cons, if_neg (h p (by simp)), ih fun q hq => h q (by simp [hq])]

theorem bump_total (k : String) :
    ∀ acc : List (String × Nat), KeysNodup acc →
      totalCount (bump acc k) = totalCount acc + 1 := by
  intro acc
  induction acc with
  | nil => intro _; rfl
  | cons p acc2 ih =>
    intro hnd
    have hnd2 : KeysNodup acc2 := (List.nodup_cons.mp hnd).2
    have hmem : p.1 ∉ acc2.map Prod.fst := (List.nodup_cons.mp hnd).1
    rw [bump]
    by_cases hany : (p :: acc2).any fun q => decide (q.1 = k)
    · rw [if_pos hany, List.map_cons]
      by_cases hp : p.1 = k
      · have hno : ∀ q ∈ acc2, ¬ q.1 = k := by
          intro q hq hqk
          exact hmem (by rw [← hp] at hqk; exact hqk ▸ List.mem_map_of_mem Prod.fst hq)
        rw [if_pos hp, map_bump_no_key k acc2 hno, totalCount_cons, totalCount_cons]
        omega
      · have htail : acc2.any fun q => decide (q.1 = k) := by
          rcases List.any_eq_true.mp hany with ⟨q, hq, hqk⟩
          rcases List.mem_cons.mp hq with h1 | h2
          · exact absurd (of_decide_eq_true hqk) (h1 ▸ hp)
          · exact List.any_eq_true.mpr ⟨q, h2, hqk⟩
        have := ih hnd2
        rw [bump, if_pos htail] at this
        rw [if_neg hp, totalCount_cons, this, totalCount_cons]
        omega
    · rw [if_neg hany]
      simp [totalCount]
      omega

theorem bump_keysNodup (k : String) (acc : List (String × Nat)) (h : KeysNodup acc) :
    KeysNodup (bump acc k) := by
  rw [bump]
  by_cases hany : acc.any fun q => decide (q.1 = k)
  · rw [if_pos hany]
    unfold KeysNodup at h ⊢
    have : ((acc.map fun p => if p.1 = k then (p.1, p.2 + 1) else p).map Prod.fst) =
        acc.map Prod.fst := by
      rw [List.map_map]
      apply List.map_congr_left
      intro p _
      by_cases hp : p.1 = k <;> simp [hp]
    rw [this]
    exact h
  · rw [if_neg hany]
    unfold KeysNodup at h ⊢
    rw [List.map_append]
    have hk : k ∉ acc.map Prod.fst := by
      intro hmem
      rcases List.mem_map.mp hmem with ⟨p, hp, hpk⟩
      exact hany (List.any_eq_true.mpr ⟨p, hp, by simp [hpk]⟩)
    simp [List.nodup_append, h, hk]

theorem bumpFields_total (pf : String) :
    ∀ (fs : List CustomField) (acc : List (String × Nat)), KeysNodup acc →
      totalCount (bumpFields pf fs acc) =
        totalCount acc + fs.countP fun f => decide (f.name = some pf) := by
  intro fs
  induction fs with
  | nil => intro acc _; simp [bumpFields]
  | cons f fs2 ih =>
    intro acc hnd
    rw [bumpFields]
    by_cases hf : f.name = some pf
    · rw [if_pos hf, ih _ (bump_keysNodup _ acc hnd),
        bump_total _ acc hnd, List.countP_cons_of_pos _ _ (by simp [hf])]
      omega
    · rw [if_neg hf, ih acc hnd, List.countP_cons_of_neg _ _ (by simp [hf])]

theorem bump_ne_nil (acc : List (String × Nat)) (k : String) : bump acc k ≠ [] := by
  rw [bump]
  by_cases hany : acc.any fun q => decide (q.1 = k)
  · rw [if_pos hany]
    intro h
    rw [List.map_eq_nil_iff] at h
    subst h
    simp at hany
  · rw [if_neg hany]
    simp

theorem bumpFields_ne_nil (pf : String) :
    ∀ (fs : List CustomField) (acc : List (String × Nat)),
      acc ≠ [] → bumpFields pf fs acc ≠ [] := by
  intro fs
  induction fs with
  | nil => intro acc h; exact h
  | cons f fs2 ih =>
    intro acc h
    rw [bumpFields]
    by_cases hf : f.name = some pf
    · rw [if_pos hf]
      exact ih _ (bump_ne_nil acc _)
    · rw [if_neg hf]
      exact ih acc h

theorem bumpFields_nil_ne_nil_iff (pf : String) (fs : List CustomField) :
    bumpFields pf fs [] ≠ [] ↔ ∃ f ∈ fs, f.name = some pf := by
  constructor
  · intro h
    by_contra hno
    push_neg at hno
    exact h (bumpFields_no_match pf fs [] hno)
  · intro ⟨f, hf, hname⟩
    induction fs with
    | nil => simp at hf
    | cons g fs2 ih =>
      rw [bumpFields]
      by_cases hg : g.name = some pf
      · rw [if_pos hg]
        exact bumpFields_ne_nil pf fs2 _ (bump_ne_nil [] _)
      · rw [if_neg hg]
        rcases List.mem_cons.mp hf with h1 | h2
        · exact absurd (h1 ▸ hname) hg
        · exact ih h2

/-- C3 fails on the code: a Team-matching incomplete task created in the
current month but carrying no custom attribute named "Priority" contributes
to no group at all in either by-priority aggregator -- both results are
empty rather than containing the ("Unknown", 1) group the claim requires. -/
theorem C3_counterexample :
    get_tasks_grouped_by_priority "Engagement" "Priority" pagesOne = Except.ok [] ∧
      get_incoming_tasks_grouped_by_priority "Engagement" "Priority" "2025-09" pagesOne =
        Except.ok [] ∧
      byPriorityGo "Priority" [taskTeamOnly] [] = [] ∧
      matchesTeam "Engagement" taskTeamOnly = true :=
  ⟨rfl, rfl, rfl, rfl⟩

/-- C3 amended: a task with no custom attribute named the configured
priority field is dropped from both by-priority aggregations (it does not
appear under any key); the "Unknown" fallback group is used only for an
attribute that is named the priority field but has no display value. -/
theorem C3_no_priority_dropped (pf cm : String) (t : Task) (ts : List Task)
    (acc : List (String × Nat))
    (hno : ∀ f ∈ t.custom_fields, ¬ f.name = some pf)
    (hts : ∀ s, t.created_at = some s → (parseCreatedAt s).isSome) :
    byPriorityGo pf (t :: ts) acc = byPriorityGo pf ts acc ∧
      incomingGo pf cm (t :: ts) acc = incomingGo pf cm ts acc ∧
      ∀ (f : CustomField) (acc2 : List (String × Nat)),
        f.name = some pf → f.display_value = none →
        bumpFields pf [f] acc2 = bump acc2 "Unknown" := by
  refine ⟨?_, ?_, ?_⟩
  · rw [byPriorityGo]
    by_cases hc : t.completed.getD false
    · rw [if_pos hc]
    · rw [if_neg hc, bumpFields_no_match pf t.custom_fields acc hno]
  · cases hca : t.created_at with
    | none => simp only [incomingGo, hca]
    | some s =>
      by_cases hemp : s = ""
      · simp only [incomingGo, hca, if_pos hemp]
      · obtain ⟨ym, hym⟩ := Option.isSome_iff_exists.mp (hts s hca)
        simp only [incomingGo, hca, if_neg hemp, hym]
        by_cases hcm : ym = cm
        · rw [if_pos hcm, bumpFields_no_match pf t.custom_fields acc hno]
        · rw [if_neg hcm]
  · intro f acc2 hname hdv
    rw [bumpFields, if_pos hname, hdv]
    rfl

/-- Witness for the amended C3: the Engagement-only task changes neither
by-priority result, and a display-value-less priority attribute bumps the
"Unknown" group. -/
theorem C3_no_priority_dropped_witness :
    byPriorityGo "Priority" [taskTeamOnly] [] = byPriorityGo "Priority" [] [] ∧
      incomingGo "Priority" "2025-09" [taskTeamOnly] [] = incomingGo "Priority" "2025-09" [] [] ∧
      bumpFields "Priority" [⟨some "Priority", none⟩] [] = bump [] "Unknown" :=
  have h := C3_no_priority_dropped "Priority" "2025-09" taskTeamOnly [] []
    (by decide) (by intro s hs; rw [← Option.some.inj hs]; decide)
  ⟨h.1, h.2.1, h.2.2 ⟨some "Priority", none⟩ [] rfl rfl⟩

/-- C4 fails on the code: the priority scan has no break, so a task with two
custom attributes named "Priority", both displaying "High", contributes two
counts to the "High" group instead of the exactly one count the claim
requires. -/
theorem C4_counterexample :
    byPriorityGo "Priority" [taskDupPriority] [] = [("High", 2)] ∧
      get_tasks_grouped_by_priority "Engagement" "Priority" pagesTwo =
        Except.ok [("High", 2)] :=
  ⟨rfl, rfl⟩

/-- C4 amended: in both by-priority aggregators every custom attribute whose
name equals the configured priority field contributes one count under its
own display value -- a qualifying task adds exactly as many counts as it has
matching attributes, not exactly one. -/
theorem C4_per_attribute_counts (pf cm : String) (t : Task) (ts : List Task)
    (acc : List (String × Nat)) (hkeys : KeysNodup acc)
    (hc : t.completed.getD false = false) :
    byPriorityGo pf (t :: ts) acc = byPriorityGo pf ts (bumpFields pf t.custom_fields acc) ∧
      totalCount (bumpFields pf t.custom_fields acc) =
        totalCount acc + t.custom_fields.countP (fun f => decide (f.name = some pf)) ∧
      ∀ s, t.created_at = some s → parseCreatedAt s = some cm →
        incomingGo pf cm (t :: ts) acc = incomingGo pf cm ts (bumpFields pf t.custom_fields acc) := by
  refine ⟨?_, bumpFields_total pf t.custom_fields acc hkeys, ?_⟩
  · rw [byPriorityGo, if_neg (by simp [hc])]
  · intro s hs hparse
    have hemp : ¬ s = "" := by
      intro h
      rw [h, show parseCreatedAt "" = none from rfl] at hparse
      exact Option.noConfusion hparse
    simp only [incomingGo, hs, if_neg hemp, hparse]
    simp

/-- Witness for the amended C4: the single-priority task adds exactly one
count, its number of matching attributes. -/
theorem C4_per_attribute_counts_witness :
    byPriorityGo "Priority" [taskNoFlag] [] =
      byPriorityGo "Priority" [] (bumpFields "Priority" taskNoFlag.custom_fields []) ∧
      totalCount (bumpFields "Priority" taskNoFlag.custom_fields []) =
        totalCount [] + taskNoFlag.custom_fields.countP (fun f => decide (f.name = some "Priority")) ∧
      incomingGo "Priority" "2025-09" [taskNoFlag] [] =
        incomingGo "Priority" "2025-09" [] (bumpFields "Priority" taskNoFlag.custom_fields []) :=
  have h := C4_per_attribute_counts "Priority" "2025-09" taskNoFlag [] []
    (by simp [KeysNodup]) (by rfl)
  ⟨h.1, h.2.1, h.2.2 "2025-09-10T08:30:00.5Z" rfl (by rfl)⟩

/-- C10: a Team-matching task whose completion flag is absent is treated as
incomplete everywhere the flag is read: it is counted by the pending count,
and both the by-priority and by-assignee open groupings process it exactly
as they would the same task with an explicit false flag. -/
theorem C10_missing_completed_is_incomplete (pf : String) (t : Task) (ts : List Task)
    (acc acc2 : List (String × Nat)) (h : t.completed = none) :
    ((t :: ts).countP fun u => !(u.completed.getD false)) =
        (ts.countP fun u => !(u.completed.getD false)) + 1 ∧
      ((t :: ts).countP fun u => !(u.completed.getD false)) =
        (({ t with completed := some false } :: ts).countP fun u => !(u.completed.getD false)) ∧
      byPriorityGo pf (t :: ts) acc =
        byPriorityGo pf ({ t with completed := some false } :: ts) acc ∧
      byAssigneeGo (t :: ts) acc2 =
        byAssigneeGo ({ t with completed := some false } :: ts) acc2 ∧
      byAssigneeGo (t :: ts) acc2 = byAssigneeGo ts (bump acc2 (t.assignee.getD "Unassigned")) := by
  refine ⟨?_, ?_, ?_, ?_, ?_⟩
  · rw [List.countP_cons_of_pos _ _ (by simp [h])]
  · rw [List.countP_cons_of_pos _ _ (by simp [h]),
      List.countP_cons_of_pos _ _ (by simp)]
  · rw [byPriorityGo, byPriorityGo]
    simp [h]
  · rw [byAssigneeGo, byAssigneeGo]
    simp [h]
  · rw [byAssigneeGo]
    simp [h]

/-- Witness for C10 on the flagless task: counted as pending and grouped
exactly as its explicitly-incomplete copy. -/
theorem C10_missing_completed_is_incomplete_witness :
    (([taskNoFlag] : List Task).countP fun u => !(u.completed.getD false)) =
        (([] : List Task).countP fun u => !(u.completed.getD false)) + 1 ∧
      byAssigneeGo [taskNoFlag] [] =
        byAssigneeGo [{ taskNoFlag with completed := some false }] [] :=
  have h := C10_missing_completed_is_incomplete "Priority" taskNoFlag [] [] [] (by rfl)
  ⟨h.1, h.2.2.2.1⟩

/-- C5 fails on the code: a Team-matching task created in the current UTC
month is nevertheless absent from the incoming-by-priority result when it
has no custom attribute named the priority field, so month membership alone
does not imply inclusion (the claimed "if" direction of the iff). -/
theorem C5_counterexample :
    matchesTeam "Engagement" taskTeamOnly = true ∧
      parseCreatedAt "2025-09-03T12:00:00.123456Z" = some "2025-09" ∧
      taskTeamOnly.created_at = some "2025-09-03T12:00:00.123456Z" ∧
      get_incoming_tasks_grouped_by_priority "Engagement" "Priority" "2025-09" pagesOne =
        Except.ok [] :=
  ⟨rfl, rfl, rfl, rfl⟩

/-- C5 amended: a task whose creation timestamp is absent or empty (falsy
under the Python guard) is excluded without error, and a task with a
timestamp the program parses contributes to the incoming-by-priority
result iff its rendered UTC year-month equals the current month AND it
carries at least one custom attribute named the priority field. -/
theorem C5_incoming_month_filter (pf cm : String) (t : Task) (ts : List Task)
    (acc : List (String × Nat)) :
    ((t.created_at = none ∨ t.created_at = some "") →
      incomingGo pf cm (t :: ts) acc = incomingGo pf cm ts acc) ∧
      ∀ s ym, t.created_at = some s → parseCreatedAt s = some ym →
        ((∃ l, incomingGo pf cm [t] [] = Except.ok l ∧ l ≠ []) ↔
          (ym = cm ∧ ∃ f ∈ t.custom_fields, f.name = some pf)) := by
  constructor
  · rintro (h | h)
    · simp only [incomingGo, h]
    · simp [incomingGo, h]
  · intro s ym hs hym
    have hemp : ¬ s = "" := by
      intro h
      rw [h, show parseCreatedAt "" = none from rfl] at hym
      exact Option.noConfusion hym
    by_cases hcm : ym = cm
    · simp only [incomingGo, hs, if_neg hemp, hym, if_pos hcm]
      constructor
      · rintro ⟨l, hl, hne⟩
        refine ⟨hcm, ?_⟩
        have hl2 : bumpFields pf t.custom_fields [] = l := by
          injection hl
        exact (bumpFields_nil_ne_nil_iff pf _).mp (hl2 ▸ hne)
      · rintro ⟨_, hf⟩
        exact ⟨bumpFields pf t.custom_fields [], rfl,
          (bumpFields_nil_ne_nil_iff pf _).mpr hf⟩
    · simp only [incomingGo, hs, if_neg hemp, hym, if_neg hcm]
      constructor
      · rintro ⟨l, hl, hne⟩
        have : ([] : List (String × Nat)) = l := by injection hl
        exact absurd this.symm hne
      · rintro ⟨h1, _⟩
        exact absurd h1 hcm

/-- Witness for the amended C5: the current-month task carrying a priority
attribute produces a non-empty incoming result. -/
theorem C5_incoming_month_filter_witness :
    ∃ l, incomingGo "Priority" "2025-09" [taskNoFlag] [] = Except.ok l ∧ l ≠ [] :=
  ((C5_incoming_month_filter "Priority" "2025-09" taskNoFlag [] []).2
    "2025-09-10T08:30:00.5Z" "2025-09" rfl (by rfl)).mpr
    ⟨rfl, fieldPriorityHigh, by decide, rfl⟩

theorem incomingGo_error (pf cm : String) :
    ∀ (ts : List Task) (acc : List (String × Nat)),
      (∃ t ∈ ts, ∃ s, t.created_at = some s ∧ s ≠ "" ∧ parseCreatedAt s = none) →
      ∃ s2, incomingGo pf cm ts acc = Except.error (AsanaError.timestampParseError s2) := by
  intro ts
  induction ts with
  | nil => rintro acc ⟨t, ht, _⟩; simp at ht
  | cons u ts2 ih =>
    rintro acc ⟨t, ht, s, hs, hemp, hbad⟩
    rcases List.mem_cons.mp ht with h1 | h2
    · subst h1
      simp only [incomingGo, hs, if_neg hemp, hbad]
      exact ⟨s, rfl⟩
    · cases hu : u.created_at with
      | none =>
        simp only [incomingGo, hu]
        exact ih acc ⟨t, h2, s, hs, hemp, hbad⟩
      | some su =>
        by_cases hsu : su = ""
        · simp only [incomingGo, hu, if_pos hsu]
          exact ih acc ⟨t, h2, s, hs, hemp, hbad⟩
        · cases hpu : parseCreatedAt su with
          | none =>
            simp only [incomingGo, hu, if_neg hsu, hpu]
            exact ⟨su, rfl⟩
          | some ym =>
            simp only [incomingGo, hu, if_neg hsu, hpu]
            by_cases hcm : ym = cm
            · rw [if_pos hcm]
              exact ih _ ⟨t, h2, s, hs, hemp, hbad⟩
            · rw [if_neg hcm]
              exact ih acc ⟨t, h2, s, hs, hemp, hbad⟩

/-- C6 fails on the code: a task whose creation timestamp is present in the
record as the empty string does not match the format, yet the guard
`if not created_at` treats the empty string as falsy and skips the task,
so the aggregation completes normally instead of raising. -/
theorem C6_counterexample :
    taskEmptyTs.created_at = some "" ∧
      parseCreatedAt "" = none ∧
      matchesTeam "Engagement" taskEmptyTs = true ∧
      get_incoming_tasks_grouped_by_priority "Engagement" "Priority" "2025-09"
        pagesEmptyTs = Except.ok [] :=
  ⟨rfl, rfl, rfl, rfl⟩

/-- C6 amended: when any fetched task carries a creation timestamp that is
present, non-empty, and rejected by the strptime format, the
incoming-by-priority aggregation returns the parse error and no grouping at
all -- such a task is not skipped and no partial result is produced; only
an absent or empty (falsy) timestamp is skipped. -/
theorem C6_malformed_timestamp_fatal (tn pf cm : String) (pages : List Response)
    (ts : List Task) (n : Nat) (t : Task) (s : String)
    (hfetch : fetch_tasks_with_pagination tn pages = Except.ok (ts, n))
    (ht : t ∈ ts) (hs : t.created_at = some s) (hemp : s ≠ "")
    (hbad : parseCreatedAt s = none) :
    ∃ s2, get_incoming_tasks_grouped_by_priority tn pf cm pages =
      Except.error (AsanaError.timestampParseError s2) := by
  obtain ⟨s2, herr⟩ := incomingGo_error pf cm ts [] ⟨t, ht, s, hs, hemp, hbad⟩
  refine ⟨s2, ?_⟩
  simp only [get_incoming_tasks_grouped_by_priority, hfetch, herr]

/-- Witness for the amended C6: the page holding the task whose timestamp
lacks a time component makes the whole aggregation error out. -/
theorem C6_malformed_timestamp_fatal_witness :
    ∃ s2, get_incoming_tasks_grouped_by_priority "Engagement" "Priority" "2025-09"
      pagesMalformed = Except.error (AsanaError.timestampParseError s2) :=
  C6_malformed_timestamp_fatal "Engagement" "Priority" "2025-09" pagesMalformed
    [taskBadTimestamp] 1 taskBadTimestamp "2025-09-03" (by rfl) (by decide) rfl
    (by decide) (by rfl)

/-! Lemmas on the stable descending sort. -/

theorem filter_orderedInsert (c : Nat) (x : String × Nat) :
    ∀ l : List (String × Nat),
      (List.orderedInsert countGE x l).filter (fun p => decide (p.2 = c)) =
        if x.2 = c then x :: l.filter (fun p => decide (p.2 = c))
        else l.filter (fun p => decide (p.2 = c)) := by
  intro l
  induction l with
  | nil =>
    by_cases hx : x.2 = c <;> simp [List.orderedInsert, List.filter, hx]
  | cons y ys ih =>
    rw [List.orderedInsert]
    by_cases hr : countGE x y
    · rw [if_pos hr]
      by_cases hx : x.2 = c <;> simp [List.filter_cons, hx]
    · rw [if_neg hr]
      have hxy : x.2 = c → ¬ y.2 = c := by
        intro hx hyc
        exact hr (by unfold countGE; omega)
      simp only [List.filter_cons, ih]
      by_cases hx : x.2 = c
      · have hy := hxy hx
        simp [hx, hy]
      · by_cases hyc : y.2 = c <;> simp [hx, hyc]

theorem filter_sortDesc (c : Nat) :
    ∀ l : List (String × Nat),
      (sortDesc l).filter (fun p => decide (p.2 = c)) =
        l.filter (fun p => decide (p.2 = c)) := by
  intro l
  induction l with
  | nil => rfl
  | cons x xs ih =>
    rw [sortDesc, List.insertionSort] at *
    rw [filter_orderedInsert c x]
    by_cases hx : x.2 = c
    · rw [if_pos hx, ih, List.filter_cons_of_pos (by simp [hx])]
    · rw [if_neg hx, ih, List.filter_cons_of_neg (by simp [hx])]

theorem sortDesc_sorted (l : List (String × Nat)) : (sortDesc l).Pairwise countGE :=
  List.sorted_insertionSort countGE l

/-- C7: any successful incoming-by-priority or by-assignee result is the
stable descending sort of the insertion-ordered accumulator its aggregator
built: counts are non-increasing along the output, and for every count
value the groups carrying it appear exactly in the order their keys were
first inserted (the filter of the output at each count equals the filter of
the accumulator).  Both aggregators are pure functions of their input, so
identical input yields an identical output sequence. -/
theorem C7_sorted_stable :
    (∀ (tn pf cm : String) (pages : List Response) (r : List (String × Nat)),
      get_incoming_tasks_grouped_by_priority tn pf cm pages = Except.ok r →
      r.Pairwise countGE ∧
        ∃ ts n acc, fetch_tasks_with_pagination tn pages = Except.ok (ts, n) ∧
          incomingGo pf cm ts [] = Except.ok acc ∧ r = sortDesc acc ∧
          ∀ c, r.filter (fun p => decide (p.2 = c)) =
            acc.filter (fun p => decide (p.2 = c))) ∧
    ∀ (tn : String) (pages : List Response) (r : List (String × Nat)),
      get_tasks_grouped_by_assignee tn pages = Except.ok r →
      r.Pairwise countGE ∧
        ∃ ts n, fetch_tasks_with_pagination tn pages = Except.ok (ts, n) ∧
          r = sortDesc (byAssigneeGo ts []) ∧
          ∀ c, r.filter (fun p => decide (p.2 = c)) =
            (byAssigneeGo ts []).filter (fun p => decide (p.2 = c)) := by
  constructor
  · intro tn pf cm pages r hr
    rw [get_incoming_tasks_grouped_by_priority] at hr
    cases hf : fetch_tasks_with_pagination tn pages with
    | error e => simp [hf] at hr
    | ok p =>
      obtain ⟨ts0, n0⟩ := p
      simp only [hf] at hr
      cases hi : incomingGo pf cm ts0 [] with
      | error e => simp [hi] at hr
      | ok acc =>
        simp only [hi, Except.ok.injEq] at hr
        subst hr
        exact ⟨sortDesc_sorted acc,
          ts0, n0, acc, rfl, hi, rfl, fun c => filter_sortDesc c acc⟩
  · intro tn pages r hr
    rw [get_tasks_grouped_by_assignee] at hr
    cases hf : fetch_tasks_with_pagination tn pages with
    | error e => simp [hf, Except.map] at hr
    | ok p =>
      obtain ⟨ts0, n0⟩ := p
      simp only [hf, Except.map, Except.ok.injEq] at hr
      subst hr
      exact ⟨sortDesc_sorted _, ts0, n0, rfl, rfl,
        fun c => filter_sortDesc c _⟩

/-- Witness for C7 on a concrete page: the incoming result sorts the
accumulator [("High", 1), ("Low", 2)] into [("Low", 2), ("High", 1)]. -/
theorem C7_sorted_stable_witness :
    ([("Low", 2), ("High", 1)] : List (String × Nat)).Pairwise countGE ∧
      ∃ ts n acc,
        fetch_tasks_with_pagination "Engagement" pagesSort = Except.ok (ts, n) ∧
          incomingGo "Priority" "2025-09" ts [] = Except.ok acc ∧
          ([("Low", 2), ("High", 1)] : List (String × Nat)) = sortDesc acc ∧
          ∀ c, ([("Low", 2), ("High", 1)] : List (String × Nat)).filter
              (fun p => decide (p.2 = c)) =
            acc.filter (fun p => decide (p.2 = c)) :=
  C7_sorted_stable.1 "Engagement" "Priority" "2025-09" pagesSort
    [("Low", 2), ("High", 1)] (by rfl)

/-- C9: the message `main` builds factors into the four section renderings
in the fixed order pending, incoming-by-priority, by-priority, by-assignee;
each section is a function of its own aggregator outcome alone, an erroring
aggregator renders exactly its inline error line, and the report of the
full pipelines is that same concatenation -- so any combination of
successes and failures leaves the other sections rendering their normal
content. -/
theorem C9_sections_independent (cm : String) (p : Except AsanaError Nat)
    (inc pri asg : Except AsanaError (List (String × Nat))) :
    buildSlackMessage cm p inc pri asg =
      "*Asana Status* \n\n" ++ renderPending p ++ renderIncoming cm inc ++
        renderPriority pri ++ renderAssignee asg ∧
      (∀ e, renderPending (Except.error e) =
        "⚠️ Error fetching pending tasks: " ++ errMsg e ++ "\n") ∧
      (∀ e, renderIncoming cm (Except.error e) =
        "⚠️ Error fetching incoming tasks by priority: " ++ errMsg e ++ "\n") ∧
      (∀ e, renderPriority (Except.error e) =
        "⚠️ Error fetching tasks by priority: " ++ errMsg e ++ "\n") ∧
      (∀ e, renderAssignee (Except.error e) =
        "⚠️ Error fetching tasks by assignee: " ++ errMsg e ++ "\n") ∧
      ∀ (tn pf : String) (pages1 pages2 pages3 pages4 : List Response),
        mainReport tn pf cm pages1 pages2 pages3 pages4 =
          "*Asana Status* \n\n" ++
            renderPending (get_pending_tasks tn pages1) ++
            renderIncoming cm (get_incoming_tasks_grouped_by_priority tn pf cm pages2) ++
            renderPriority (get_tasks_grouped_by_priority tn pf pages3) ++
            renderAssignee (get_tasks_grouped_by_assignee tn pages4) := by
  have hfactor : ∀ (p2 : Except AsanaError Nat)
      (inc2 pri2 asg2 : Except AsanaError (List (String × Nat))),
      buildSlackMessage cm p2 inc2 pri2 asg2 =
        "*Asana Status* \n\n" ++ renderPending p2 ++ renderIncoming cm inc2 ++
          renderPriority pri2 ++ renderAssignee asg2 := by
    intro p2 inc2 pri2 asg2
    cases p2 <;> cases inc2 <;> cases pri2 <;> cases asg2 <;>
      simp [buildSlackMessage, renderPending, renderIncoming, renderPriority,
        renderAssignee, String.empty_append, String.append_assoc]
  refine ⟨hfactor p inc pri asg, fun e => rfl, fun e => rfl, fun e => rfl, fun e => rfl, ?_⟩
  intro tn pf pages1 pages2 pages3 pages4
  exact hfactor _ _ _ _

end AsanaStatus
